import Mathlib

/-!
Verification development for the go-package HTTP client transport pipeline.

The Go sources embedded here are:
  * clients/httpclient/circuit_breaker.go  (circuit breaker middleware,
    RoundTripperFunc, configMiddlewares)
  * the cache middleware file (NewCacheMiddleware, getCacheKey, buildURLPart,
    buildQueryPart, buildVaryHeadersPart, responseToJSON,
    parseCachedResponseFromString, getCacheControlHeaderValue)

Modelling conventions:
  * Machine integers are modelled as Nat; uint32 arithmetic of the breaker
    counters reduces modulo 2^32 where the Go code can overflow.
  * Go (value, error) pairs are modelled as Option-pairs, since Go allows
    any of the four nil/non-nil combinations to occur at runtime.
  * A response body (an io.ReadCloser) is modelled as a stream that either
    yields a full string on read or fails with an error, matching the two
    observable outcomes of io.ReadAll.
  * context.Context values are identified by a numeric tag; the middleware
    only ever passes contexts through, so the tag is enough to track which
    context reaches which call.
  * Header maps (net/http.Header) are association lists from key to the
    ordered list of values; keys are taken to be already in canonical MIME
    form, as they are everywhere in the sources.
-/

/-- Go error values reachable in the embedded code: plain message errors
(errors.New / fmt.Errorf without %w), wrapping errors (fmt.Errorf with %w),
the HTTPStatusError struct of circuit_breaker.go, and the two sentinel
errors of the gobreaker library. -/
inductive GoError where
  | errorString (msg : String)
  | wrapped (msg : String) (err : GoError)
  | httpStatusError (status : Nat) (err : GoError)
  | errOpenState
  | errTooManyRequests
  deriving DecidableEq, Repr

/-- A response body stream: reading it (io.ReadAll) either yields the whole
byte content as a string or fails with an error. -/
inductive BodyStream where
  | contents (s : String)
  | failing (e : GoError)
  deriving DecidableEq, Repr

/-- net/http.Header: map from canonical key to ordered list of values,
modelled as an association list. -/
abbrev Header := List (String × List String)

/-- Header.Get: first value stored under the key, or "" when absent
or when the value list is empty. -/
def headerGet (h : Header) (k : String) : String :=
  match h.find? (fun p => p.1 == k) with
  | some (_, v :: _) => v
  | _ => ""

/-- Header.Set: replace the value list of the key by the singleton [v],
inserting the key when absent. -/
def headerSet (h : Header) (k v : String) : Header :=
  match h with
  | [] => [(k, [v])]
  | (k', vs) :: rest => if k' == k then (k, [v]) :: rest else (k', vs) :: headerSet rest k v

/-- Header.Add: append v to the value list of the key, inserting the key
when absent. -/
def headerAdd (h : Header) (k v : String) : Header :=
  match h with
  | [] => [(k, [v])]
  | (k', vs) :: rest => if k' == k then (k', vs ++ [v]) :: rest else (k', vs) :: headerAdd rest k v

/-- An outbound http.Request as seen by the middlewares: method, the string
rendering of its URL (req.URL.String()), the parsed query map
(req.URL.Query()), headers, and the numeric tag of its context
(req.Context()). -/
structure Request where
  method : String
  urlString : String
  query : List (String × List String)
  header : Header
  ctx : Nat
  deriving DecidableEq, Repr

/-- An http.Response with the fields the embedded code reads or writes. -/
structure Response where
  status : String
  statusCode : Nat
  proto : String
  protoMajor : Nat
  protoMinor : Nat
  header : Header
  body : BodyStream
  contentLength : Nat
  deriving DecidableEq, Repr

/-- http.RoundTripper: one request in, a (response, error) pair out.  Both
components are Options because Go returns two separately-nilable values. -/
def Transport : Type := Request → Option Response × Option GoError

/-- RoundTripperMiddleware from the source: a function wrapping an
http.RoundTripper with additional behavior. -/
def RoundTripperMiddleware : Type := Transport → Transport

/-- configMiddlewares from circuit_breaker.go: composes the slice into a
single chain, iterating the slice from the last index down to 0 and
wrapping the accumulated transport, so that the first middleware in the
slice is the outermost.  The Go code fixes the innermost transport to
http.DefaultTransport (the real network, external to the repository); it
is a parameter here. -/
def configMiddlewares (middlewares : List RoundTripperMiddleware)
    (defaultTransport : Transport) : Transport :=
  (middlewares.reverse).foldl (fun composed m => m composed) defaultTransport

/-- strings.Join from the Go standard library. -/
def stringsJoin (parts : List String) (sep : String) : String :=
  match parts with
  | [] => ""
  | [p] => p
  | p :: rest => p ++ sep ++ stringsJoin rest sep

/-- sort.Strings: sorts a list of strings in ascending lexicographic order
(insertion sort; extensionally the sorted permutation, which is all the
source depends on). -/
def sortStringsInsert (s : String) (l : List String) : List String :=
  match l with
  | [] => [s]
  | t :: rest => if decide (s ≤ t) then s :: t :: rest else t :: sortStringsInsert s rest

/-- sort.Strings over a whole list. -/
def sortStrings (l : List String) : List String :=
  match l with
  | [] => []
  | s :: rest => sortStringsInsert s (sortStrings rest)

/-- The decimal digit character for n % 10, as printed by the Go %v verb and strconv. -/
def digitChar (n : Nat) : Char :=
  match n with
  | 0 => '0' | 1 => '1' | 2 => '2' | 3 => '3' | 4 => '4'
  | 5 => '5' | 6 => '6' | 7 => '7' | 8 => '8' | _ => '9'

/-- Decimal digit list of a natural number (fuel-indexed so that it reduces
by iota; fuel n+1 always suffices). -/
def natDigitsAux : Nat → Nat → List Char
  | 0, _ => []
  | fuel + 1, n =>
    if n < 10 then [digitChar n]
    else natDigitsAux fuel (n / 10) ++ [digitChar (n % 10)]

/-- Decimal digit list of a natural number, most significant first. -/
def natDigits (n : Nat) : List Char := natDigitsAux (n + 1) n

/-- Decimal rendering of a natural number, as produced by the Go %v verb for
a nonnegative integer (and for a float64 holding a whole number of
seconds, the only durations the embedded configurations use). -/
def natToString (n : Nat) : String := String.mk (natDigits n)

/-- Numeric value of a list of decimal digit characters. -/
def parseDigits (cs : List Char) : Nat :=
  cs.foldl (fun acc c => acc * 10 + (c.toNat - 48)) 0

/-- math.MaxInt64: strconv.Atoi fails (and the source then returns 0) on
values beyond it. -/
def maxInt64 : Nat := 9223372036854775807

/-- If pat is a leading segment of s (character-wise), return the remainder
of s after it. -/
def dropLeading : List Char → List Char → Option (List Char)
  | [], t => some t
  | _ :: _, [] => none
  | p :: ps, c :: cs => if p == c then dropLeading ps cs else none

/-- The literal pattern that the regular expression max-age=(\d+) of the
source searches for, as a character list. -/
def maxAgePat : List Char := ['m', 'a', 'x', '-', 'a', 'g', 'e', '=']

/-- Leftmost match of the regular expression max-age=(\d+) over a character
list: at each position, if the literal pattern is present and at least one
digit follows, capture the maximal digit run; otherwise continue scanning.
This is exactly the leftmost-match semantics of regexp.FindStringSubmatch
for this pattern. -/
def findMaxAge : List Char → Option (List Char)
  | [] => none
  | c :: cs =>
    match dropLeading maxAgePat (c :: cs) with
    | some after =>
      let ds := after.takeWhile Char.isDigit
      if ds.isEmpty then findMaxAge cs else some ds
    | none => findMaxAge cs

/-- getCacheControlHeaderValue from the source: read the Cache-Control
header, find max-age=(\d+), convert the captured digits with
strconv.Atoi, and return 0 when the pattern is absent or the conversion
fails (which for a pure digit run happens exactly on int64 overflow). -/
def getCacheControlHeaderValue (res : Response) : Nat :=
  match findMaxAge (headerGet res.header "Cache-Control").toList with
  | some ds => let age := parseDigits ds; if age ≤ maxInt64 then age else 0
  | none => 0

/-- Truncation to 32 bits (uint32 arithmetic). -/
def w32 (n : Nat) : Nat := n % 4294967296

/-- 32-bit right rotation. -/
def rotr32 (k n : Nat) : Nat := w32 ((n >>> k) ||| (n <<< (32 - k)))

/-- UTF-8 encoding of one character, as Go lays out string bytes. -/
def utf8Bytes (c : Char) : List Nat :=
  let n := c.toNat
  if n < 128 then [n]
  else if n < 2048 then [192 ||| (n >>> 6), 128 ||| (n &&& 63)]
  else if n < 65536 then
    [224 ||| (n >>> 12), 128 ||| ((n >>> 6) &&& 63), 128 ||| (n &&& 63)]
  else
    [240 ||| (n >>> 18), 128 ||| ((n >>> 12) &&& 63), 128 ||| ((n >>> 6) &&& 63),
     128 ||| (n &&& 63)]

/-- The UTF-8 byte sequence of a string. -/
def stringUTF8 (s : String) : List Nat := (s.toList.map utf8Bytes).flatten

/-- SHA-256 round constants (FIPS 180-4). -/
def sha256K : List Nat :=
  [1116352408, 1899447441, 3049323471, 3921009573, 961987163,
   1508970993, 2453635748, 2870763221, 3624381080, 310598401,
   607225278, 1426881987, 1925078388, 2162078206, 2614888103,
   3248222580, 3835390401, 4022224774, 264347078, 604807628,
   770255983, 1249150122, 1555081692, 1996064986, 2554220882,
   2821834349, 2952996808, 3210313671, 3336571891, 3584528711,
   113926993, 338241895, 666307205, 773529912, 1294757372,
   1396182291, 1695183700, 1986661051, 2177026350, 2456956037,
   2730485921, 2820302411, 3259730800, 3345764771, 3516065817,
   3600352804, 4094571909, 275423344, 430227734, 506948616,
   659060556, 883997877, 958139571, 1322822218, 1537002063,
   1747873779, 1955562222, 2024104815, 2227730452, 2361852424,
   2428436474, 2756734187, 3204031479, 3329325298]

/-- SHA-256 initial hash state (FIPS 180-4). -/
def sha256H0 : List Nat :=
  [1779033703, 3144134277, 1013904242, 2773480762, 1359893119,
   2600822924, 528734635, 1541459225]

/-- SHA-256 message padding: append 0x80, zero bytes up to 56 mod 64, then
the 64-bit big-endian bit length. -/
def sha256pad (msg : List Nat) : List Nat :=
  let L := msg.length
  let k := (119 - L % 64) % 64
  let lenBits := L * 8
  msg ++ [128] ++ List.replicate k 0 ++
    (List.range 8).map (fun i => (lenBits >>> (8 * (7 - i))) % 256)

/-- Big-endian decoding of a byte list into 32-bit words. -/
def bytesToWords : List Nat → List Nat
  | b0 :: b1 :: b2 :: b3 :: rest =>
    ((b0 <<< 24) ||| (b1 <<< 16) ||| (b2 <<< 8) ||| b3) :: bytesToWords rest
  | _ => []

/-- Split a byte list into 64-byte blocks (fuel-indexed so that it reduces
by iota; fuel length+1 always suffices). -/
def chunks64Aux : Nat → List Nat → List (List Nat)
  | 0, _ => []
  | _ + 1, [] => []
  | fuel + 1, b :: bs => (b :: bs).take 64 :: chunks64Aux fuel ((b :: bs).drop 64)

/-- Split a byte list into 64-byte blocks. -/
def chunks64 (bytes : List Nat) : List (List Nat) := chunks64Aux (bytes.length + 1) bytes

/-- SHA-256 sigma functions. -/
def smallSigma0 (x : Nat) : Nat := (rotr32 7 x) ^^^ (rotr32 18 x) ^^^ (x >>> 3)

/-- SHA-256 sigma functions. -/
def smallSigma1 (x : Nat) : Nat := (rotr32 17 x) ^^^ (rotr32 19 x) ^^^ (x >>> 10)

/-- SHA-256 Sigma functions. -/
def bigSigma0 (x : Nat) : Nat := (rotr32 2 x) ^^^ (rotr32 13 x) ^^^ (rotr32 22 x)

/-- SHA-256 Sigma functions. -/
def bigSigma1 (x : Nat) : Nat := (rotr32 6 x) ^^^ (rotr32 11 x) ^^^ (rotr32 25 x)

/-- Extend the 16 words of a block to the 64-word message schedule. -/
def sha256schedule (m : List Nat) : List Nat :=
  (List.range 48).foldl
    (fun w _ =>
      let i := w.length
      let x := w32 (w.getD (i - 16) 0 + smallSigma0 (w.getD (i - 15) 0) +
                    w.getD (i - 7) 0 + smallSigma1 (w.getD (i - 2) 0))
      w ++ [x]) m

/-- One SHA-256 block compression. -/
def sha256compress (h : List Nat) (m : List Nat) : List Nat :=
  let w := sha256schedule m
  let s := (List.range 64).foldl
    (fun (st : List Nat) i =>
      match st with
      | [a, b, c, d, e, f, g, h8] =>
        let ch := (e &&& f) ^^^ ((4294967295 ^^^ e) &&& g)
        let maj := (a &&& b) ^^^ (a &&& c) ^^^ (b &&& c)
        let t1 := w32 (h8 + bigSigma1 e + ch + sha256K.getD i 0 + w.getD i 0)
        let t2 := w32 (bigSigma0 a + maj)
        [w32 (t1 + t2), a, b, c, w32 (d + t1), e, f, g]
      | other => other) h
  (h.zip s).map (fun p => w32 (p.1 + p.2))

/-- One hex digit, lowercase, as produced by encoding/hex. -/
def hexDigit (n : Nat) : Char :=
  if n < 10 then digitChar n
  else match n with
  | 10 => 'a' | 11 => 'b' | 12 => 'c' | 13 => 'd' | 14 => 'e' | _ => 'f'

/-- Lowercase hex rendering of a 32-bit word, 8 digits. -/
def toHex8 (n : Nat) : List Char :=
  (List.range 8).map (fun i => hexDigit ((n >>> (4 * (7 - i))) % 16))

/-- sha256.Sum256 followed by hex.EncodeToString, over the UTF-8 bytes of
the input string — the digest step of getCacheKey. -/
def sha256hex (s : String) : String :=
  let padded := sha256pad (stringUTF8 s)
  let final := (chunks64 padded).foldl (fun h chunk => sha256compress h (bytesToWords chunk)) sha256H0
  String.mk ((final.map toHex8).flatten)

/-- cacheKeyHeaders from the source: the configured list of header names
participating in the cache key. -/
abbrev cacheKeyHeaders := List String

/-- buildURLPart from the source: req.URL.String(). -/
def buildURLPart (req : Request) : String := req.urlString

/-- buildQueryPart from the source: for each query key, sort its values and
join them with ","; sort the resulting k=v fragments; join with "&".  (The
Go map iteration order is irrelevant because the fragments are sorted
before joining.) -/
def buildQueryPart (req : Request) : String :=
  let queryParts := req.query.map (fun p => p.1 ++ "=" ++ stringsJoin (sortStrings p.2) ",")
  stringsJoin (sortStrings queryParts) "&"

/-- buildVaryHeadersPart from the source: for each configured header name
whose value in the request is nonempty, emit key:value; join with "|".
(The fmt.Println logging line has no effect on the result.) -/
def buildVaryHeadersPart (req : Request) (headers : cacheKeyHeaders) : String :=
  let headersParts := (headers.filter (fun key => headerGet req.header key != "")).map
    (fun key => key ++ ":" ++ headerGet req.header key)
  stringsJoin headersParts "|"

/-- The string joined from the three key parts with "|" — the exact
preimage getCacheKey feeds to sha256.Sum256.  Key equality coincides with
equality of this fingerprint input, up to the collision resistance of
SHA-256 that the specification assumes. -/
def getCacheKeyBase (req : Request) (headers : cacheKeyHeaders) : String :=
  stringsJoin [buildURLPart req, buildQueryPart req, buildVaryHeadersPart req headers] "|"

/-- getCacheKey from the source: SHA-256 of the joined key parts, rendered
as lowercase hex. -/
def getCacheKey (req : Request) (headers : cacheKeyHeaders) : String :=
  sha256hex (getCacheKeyBase req headers)

/-- CachePolicy from the source: cache policy stored with a record. -/
structure CachePolicy where
  maxAge : Nat
  headers : List String
  deriving DecidableEq, Repr

/-- SerializableCache from the source: the structure of a cached HTTP
response.  The store holds its JSON rendering; json.Marshal cannot fail on
this struct and json.Unmarshal inverts it, so the record itself is the
faithful model of the stored value. -/
structure SerializableCache where
  status : String
  statusCode : Nat
  proto : String
  responseHeaders : Header
  body : String
  cacheControlValue : Nat
  policy : CachePolicy
  deriving DecidableEq, Repr

/-- The observable outcome of cfg.RedisClient.Get followed by
parseCachedResponseFromString, abstracting the stored JSON text:
absent when Get errors or returns the empty string; invalidEntry when a
nonempty value fails to unmarshal; validEntry sc when it unmarshals. -/
inductive StoreValue where
  | absent
  | invalidEntry
  | validEntry (sc : SerializableCache)
  deriving DecidableEq, Repr

/-- CacheConfig from the source.  The Redis client is modelled by the
lookup outcomes it produces per key (nil client = none).  TTL is a
time.Duration; the embedded configurations and the spec scenarios use
whole seconds, so it is carried as a whole number of seconds, for which
the Go %v verb prints ttl.Seconds() as the plain integer. -/
structure CacheConfig where
  redisClient : Option (String → StoreValue)
  ttlSeconds : Nat
  overrideTTL : Bool
  headers : cacheKeyHeaders

/-- responseToJSON from the source: read the whole body (failing when the
stream fails), restore the body as a fresh readable stream, and build the
serializable record.  CacheControlValue is computed by
getCacheControlHeaderValue on the response as it is at this point — after
the middleware has already rewritten Cache-Control.  Returns the record
together with the response carrying the restored body. -/
def responseToJSON (resp : Response) (policy : CachePolicy) :
    Except GoError (SerializableCache × Response) :=
  match resp.body with
  | .failing e => .error (.wrapped "failed to read response body" e)
  | .contents bodyStr =>
    let resp2 := { resp with body := .contents bodyStr }
    .ok ({ status := resp.status, statusCode := resp.statusCode, proto := resp.proto,
           responseHeaders := resp2.header, policy := policy,
           cacheControlValue := getCacheControlHeaderValue resp2,
           body := bodyStr }, resp2)

/-- The detached store write spawned on a cache miss: the goroutine calls
cfg.RedisClient.Set(req.Context(), cacheKey, cachedValue, ttl).  The
record captures exactly the four arguments of that call; ctx is the tag of
the context value passed. -/
structure SetCall where
  ctx : Nat
  key : String
  value : SerializableCache
  ttlSeconds : Nat
  deriving DecidableEq, Repr

/-- What one call through the cache middleware produces: the (response,
error) pair handed to the caller, plus the detached store write the call
spawned, if any. -/
structure CacheCallResult where
  resp : Option Response
  err : Option GoError
  pendingSet : Option SetCall

/-- NewCacheMiddleware from the source, as the behavior of one call through
the RoundTripperFunc it builds around the inner transport.  Mirrors the Go
control flow line by line: bypass when no Redis client or a non-GET
method; look the key up; serve a reconstructed response on a valid hit;
fall back to the inner chain on a deserialization failure; on a miss,
forward, and for a 2xx response rewrite Cache-Control to the effective
TTL, serialize, mark X-Cache MISS, and spawn the detached Set.  When the
inner chain yields nil response and nil error on the miss path, the Go
code dereferences a nil pointer; that combination never occurs with a
contract-abiding transport and is returned here as an empty result. -/
def NewCacheMiddleware (cfg : CacheConfig) (next : Transport) (req : Request) :
    CacheCallResult :=
  match cfg.redisClient with
  | none => let r := next req; ⟨r.1, r.2, none⟩
  | some store =>
    if req.method != "GET" then let r := next req; ⟨r.1, r.2, none⟩
    else
      let cacheKey := getCacheKey req cfg.headers
      match store cacheKey with
      | .validEntry responseSerialized =>
        let resp : Response :=
          { statusCode := responseSerialized.statusCode
            status := responseSerialized.status
            proto := responseSerialized.proto
            protoMajor := 1
            protoMinor := 1
            body := .contents responseSerialized.body
            header := responseSerialized.responseHeaders.foldl
              (fun acc p => p.2.foldl (fun acc2 vv => headerAdd acc2 p.1 vv) acc) []
            contentLength := responseSerialized.body.utf8ByteSize }
        let newCacheControl := "max-age=" ++ natToString responseSerialized.cacheControlValue ++ ", public"
        let resp := { resp with header := headerSet resp.header "Cache-Control" newCacheControl }
        let resp := { resp with header := headerSet resp.header "X-Cache" "HIT" }
        ⟨some resp, none, none⟩
      | .invalidEntry =>
        let r := next req
        ⟨r.1, r.2, none⟩
      | .absent =>
        let r := next req
        match r.2 with
        | some e => ⟨r.1, some (.wrapped "error executing request" e), none⟩
        | none =>
          match r.1 with
          | none => ⟨none, none, none⟩
          | some resp =>
            if 200 ≤ resp.statusCode ∧ resp.statusCode < 300 then
              let responseCacheControl := getCacheControlHeaderValue resp
              let ttl := if cfg.overrideTTL then cfg.ttlSeconds else responseCacheControl
              let newCacheControl := "max-age=" ++ natToString ttl ++ ", public"
              let resp1 := { resp with header := headerSet resp.header "Cache-Control" newCacheControl }
              let policy : CachePolicy := { maxAge := responseCacheControl, headers := cfg.headers }
              match responseToJSON resp1 policy with
              | .error e =>
                let resp2 := { resp1 with header := headerSet resp1.header "X-Cache" "MISS" }
                ⟨some resp2, some (.wrapped "error serializing response for cache" e), none⟩
              | .ok (cachedValue, respR) =>
                let resp2 := { respR with header := headerSet respR.header "X-Cache" "MISS" }
                ⟨some resp2, none, some ⟨req.ctx, cacheKey, cachedValue, ttl⟩⟩
            else ⟨some resp, none, none⟩

/-- gobreaker.Counts: the rolling counter window, all fields uint32. -/
structure Counts where
  requests : Nat
  totalSuccesses : Nat
  totalFailures : Nat
  consecutiveSuccesses : Nat
  consecutiveFailures : Nat
  deriving DecidableEq, Repr

/-- gobreaker breaker states: Closed, Open, Half-Open. -/
inductive CBState where
  | closed
  | opened
  | halfOpen
  deriving DecidableEq, Repr

/-- MaxRequests from the settings in the source: 10. -/
def cbMaxRequests : Nat := 10

/-- ReadyToTrip from the source: total >= 20 && failures*100/total >= 50,
in uint32 arithmetic (the Go && short-circuits, so the division by total
is only evaluated when total >= 20). -/
def readyToTrip (counts : Counts) : Bool :=
  let total := counts.requests
  let failures := counts.totalFailures
  total ≥ 20 && w32 (failures * 100) / total ≥ 50

/-- IsSuccessful from the source: nil errors succeed; an HTTPStatusError
succeeds iff its status is below 500 and not 429; all other errors fail. -/
def isSuccessful (err : Option GoError) : Bool :=
  match err with
  | none => true
  | some (.httpStatusError status _) => status < 500 && status != 429
  | some _ => false

/-- The state of one gobreaker instance.  Modelled from the documented contract of the library at the repository boundary (the library is an external
dependency; section 4.3 of the specification restates its state machine).
The Interval and Timeout settings only matter across elapsed time on a
long-lived instance; a breaker used within a single call observes no
elapsed time, so they do not appear in the state. -/
structure Breaker where
  state : CBState
  counts : Counts
  deriving DecidableEq, Repr

/-- gobreaker.NewCircuitBreaker: a fresh instance starts Closed with all
counters zero. -/
def newCircuitBreaker : Breaker := ⟨.closed, ⟨0, 0, 0, 0, 0⟩⟩

/-- Counts.onRequest. -/
def countsOnRequest (c : Counts) : Counts := { c with requests := w32 (c.requests + 1) }

/-- Counts.onSuccess. -/
def countsOnSuccess (c : Counts) : Counts :=
  { c with totalSuccesses := w32 (c.totalSuccesses + 1),
           consecutiveSuccesses := w32 (c.consecutiveSuccesses + 1),
           consecutiveFailures := 0 }

/-- Counts.onFailure. -/
def countsOnFailure (c : Counts) : Counts :=
  { c with totalFailures := w32 (c.totalFailures + 1),
           consecutiveFailures := w32 (c.consecutiveFailures + 1),
           consecutiveSuccesses := 0 }

/-- Counts.clear, applied on every state change. -/
def countsClear : Counts := ⟨0, 0, 0, 0, 0⟩

/-- gobreaker onSuccess: count the success; while Half-Open, close the
circuit after cbMaxRequests consecutive successes. -/
def breakerAfterSuccess (b : Breaker) : Breaker :=
  match b.state with
  | .closed => { b with counts := countsOnSuccess b.counts }
  | .halfOpen =>
    let c := countsOnSuccess b.counts
    if c.consecutiveSuccesses ≥ cbMaxRequests then ⟨.closed, countsClear⟩ else ⟨.halfOpen, c⟩
  | .opened => b

/-- gobreaker onFailure: count the failure; while Closed, trip to Open when
ReadyToTrip holds; while Half-Open, any failure reopens the circuit. -/
def breakerAfterFailure (b : Breaker) : Breaker :=
  match b.state with
  | .closed =>
    let c := countsOnFailure b.counts
    if readyToTrip c then ⟨.opened, countsClear⟩ else ⟨.closed, c⟩
  | .halfOpen => ⟨.opened, countsClear⟩
  | .opened => b

/-- What one gobreaker.Execute produces: the pair returned to the caller,
whether the wrapped function actually ran, and the breaker afterwards. -/
structure ExecOutcome where
  value : Option Response
  err : Option GoError
  ranFn : Bool
  breaker : Breaker
  deriving Repr

/-- The allowed-request path of Execute: count the request, run the
function, classify its error with IsSuccessful, update the breaker. -/
def breakerRun (b : Breaker) (fnOutcome : Option Response × Option GoError) : ExecOutcome :=
  let b1 : Breaker := { b with counts := countsOnRequest b.counts }
  let b2 := if isSuccessful fnOutcome.2 then breakerAfterSuccess b1 else breakerAfterFailure b1
  ⟨fnOutcome.1, fnOutcome.2, true, b2⟩

/-- gobreaker.Execute: while Open, reject immediately with ErrOpenState
(the open interval cannot have elapsed within the same call that observed
the state); while Half-Open, allow at most cbMaxRequests in-flight
requests, rejecting the rest with ErrTooManyRequests; otherwise run the
function and count its classified outcome. -/
def breakerExecute (b : Breaker) (fnOutcome : Option Response × Option GoError) : ExecOutcome :=
  match b.state with
  | .opened => ⟨none, some .errOpenState, false, b⟩
  | .halfOpen =>
    if b.counts.requests ≥ cbMaxRequests then ⟨none, some .errTooManyRequests, false, b⟩
    else breakerRun b fnOutcome
  | .closed => breakerRun b fnOutcome

/-- The function the source passes to breaker.Execute: run the inner
transport; propagate a transport error; turn a response with status >= 500
or == 429 into an HTTPStatusError wrapping fmt.Errorf("HTTP error"),
discarding the response; otherwise return the response.  The nil-response
nil-error combination would make the Go code dereference a nil pointer; it
never occurs with a contract-abiding transport and is passed through here
as an empty pair. -/
def breakerRequestFn (next : Transport) (req : Request) : Option Response × Option GoError :=
  let r := next req
  match r.2 with
  | some e => (none, some e)
  | none =>
    match r.1 with
    | none => (none, none)
    | some resp =>
      if resp.statusCode ≥ 500 ∨ resp.statusCode = 429 then
        (none, some (.httpStatusError resp.statusCode (.errorString "HTTP error")))
      else (some resp, none)

/-- What one call through the circuit breaker middleware produces; the
innerReached flag records whether the inner transport was invoked, and
breakerAfter is the final state of the breaker instance the call used. -/
structure CBCallResult where
  resp : Option Response
  err : Option GoError
  innerReached : Bool
  breakerAfter : Breaker
  deriving DecidableEq, Repr

/-- NewCircuitBreakerMiddleware from the source, as the behavior of one
call through the RoundTripperFunc it builds: the function body constructs
a NEW gobreaker instance on every invocation (gobreaker.NewCircuitBreaker
is called inside the RoundTripperFunc closure), logs the state, runs
Execute, and returns (nil, err) on error or the response otherwise.  The
name parameter only feeds logging and the instance label. -/
def NewCircuitBreakerMiddleware (name : String) (next : Transport) (req : Request) :
    CBCallResult :=
  let breaker := newCircuitBreaker
  let er := breakerExecute breaker (breakerRequestFn next req)
  match er.err with
  | some e => ⟨none, some e, er.ranFn, er.breaker⟩
  | none => ⟨er.value, none, er.ranFn, er.breaker⟩

/-- A sequence of consecutive calls through the circuit breaker middleware
constructed with the given name, the inner transport of the i-th call scripted
to produce the i-th outcome.  Because the source builds a fresh breaker
inside every call, no state flows from one call to the next; the runner
records the full result of each call so that this independence is observable. -/
def runBreakerCalls (name : String) (req : Request)
    (script : List (Option Response × Option GoError)) : List CBCallResult :=
  script.map (fun outcome => NewCircuitBreakerMiddleware name (fun _ => outcome) req)

/-- Fixture: GET /users/1 with an Authorization header, per spec scenario A. -/
def reqAuth (m v : String) : Request :=
  { method := m, urlString := "/users/1", query := [],
    header := [("Authorization", [v])], ctx := 0 }

/-- Fixture: a store in which every lookup misses. -/
def storeAbsent : String → StoreValue := fun _ => .absent

/-- Fixture: GET /items with context tag 7. -/
def reqItems : Request :=
  { method := "GET", urlString := "/items", query := [], header := [], ctx := 7 }

/-- Fixture: POST /items. -/
def reqItemsPost : Request :=
  { method := "POST", urlString := "/items", query := [], header := [], ctx := 7 }

/-- Fixture: a 200 response carrying Cache-Control max-age=60 and a readable
body, per spec scenario B. -/
def resp60 : Response :=
  { status := "200 OK", statusCode := 200, proto := "HTTP/1.1", protoMajor := 1,
    protoMinor := 1, header := [("Cache-Control", ["max-age=60"])],
    body := .contents "{}", contentLength := 2 }

/-- Fixture: a plain 200 response with no headers. -/
def respPlain : Response :=
  { status := "200 OK", statusCode := 200, proto := "HTTP/1.1", protoMajor := 1,
    protoMinor := 1, header := [], body := .contents "{}", contentLength := 2 }

/-- Fixture: a 200 response whose body stream fails on read. -/
def respBadBody : Response :=
  { status := "200 OK", statusCode := 200, proto := "HTTP/1.1", protoMajor := 1,
    protoMinor := 1, header := [], body := .failing (.errorString "unexpected EOF"),
    contentLength := 2 }

/-- Fixture: a 404 response. -/
def resp404 : Response :=
  { status := "404 Not Found", statusCode := 404, proto := "HTTP/1.1", protoMajor := 1,
    protoMinor := 1, header := [], body := .contents "missing", contentLength := 7 }

/-- Fixture: a 500 response. -/
def resp500 : Response :=
  { status := "500 Internal Server Error", statusCode := 500, proto := "HTTP/1.1",
    protoMajor := 1, protoMinor := 1, header := [], body := .contents "",
    contentLength := 0 }

/-- Fixture: a network-level transport error. -/
def errDial : GoError := .errorString "dial tcp 10.0.0.1:443: connect: connection refused"

/-- Fixture: cache configuration with override enabled and a 30 second TTL,
per spec scenario B. -/
def cfgOverride30 : CacheConfig :=
  { redisClient := some storeAbsent, ttlSeconds := 30, overrideTTL := true, headers := [] }

/-- Fixture: cache configuration with override disabled. -/
def cfgNoOverride : CacheConfig :=
  { redisClient := some storeAbsent, ttlSeconds := 30, overrideTTL := false, headers := [] }

/-- Fixture: a stored cache record for a hit. -/
def scHit : SerializableCache :=
  { status := "200 OK", statusCode := 200, proto := "HTTP/1.1",
    responseHeaders := [("Content-Type", ["application/json"])], body := "cached",
    cacheControlValue := 60, policy := { maxAge := 60, headers := [] } }

/-- Fixture: a store in which every lookup hits with scHit. -/
def storeHit : String → StoreValue := fun _ => .validEntry scHit

/-- Fixture: cache configuration whose store always hits. -/
def cfgHit : CacheConfig :=
  { redisClient := some storeHit, ttlSeconds := 0, overrideTTL := false, headers := [] }

/-- Fixture: the 26-call script of spec scenario C: 15 calls answered with
status 500, then 10 with status 200, then the 26th call answered 200. -/
def script26 : List (Option Response × Option GoError) :=
  List.replicate 15 (some resp500, none) ++ List.replicate 11 (some respPlain, none)

theorem headerGet_set_same (h : Header) (k v : String) :
    headerGet (headerSet h k v) k = v := by
  induction h with
  | nil => simp [headerGet, headerSet, List.find?]
  | cons p rest ih =>
    obtain ⟨k', vs⟩ := p
    by_cases hk : k' == k
    · simp [headerSet, hk, headerGet, List.find?]
    · simp only [headerSet, hk, Bool.false_eq_true, if_false]
      simpa [headerGet, List.find?, hk] using ih

theorem headerGet_set_ne (h : Header) (k k' v : String) (hne : (k' == k) = false) :
    headerGet (headerSet h k v) k' = headerGet h k' := by
  have hne' : (k == k') = false := by
    rw [beq_eq_false_iff_ne] at *
    exact fun e => hne e.symm
  induction h with
  | nil => simp [headerGet, headerSet, List.find?, hne']
  | cons p rest ih =>
    obtain ⟨k0, vs⟩ := p
    by_cases hk : k0 == k
    · have hk0 : k0 = k := by simpa using hk
      subst hk0
      simp [headerSet, headerGet, List.find?, hne']
    · simp only [headerSet, hk, Bool.false_eq_true, if_false]
      by_cases hk' : k0 == k'
      · simp [headerGet, List.find?, hk']
      · simpa [headerGet, List.find?, hk'] using ih

theorem parseDigits_append_single (xs : List Char) (c : Char) :
    parseDigits (xs ++ [c]) = parseDigits xs * 10 + (c.toNat - 48) := by
  simp [parseDigits, List.foldl_append]

theorem digitChar_toNat (n : Nat) (h : n < 10) : (digitChar n).toNat = 48 + n := by
  interval_cases n <;> rfl

theorem digitChar_isDigit (n : Nat) : (digitChar n).isDigit = true := by
  rcases n with _ | _ | _ | _ | _ | _ | _ | _ | _ | _ | n <;> rfl

theorem parseDigits_natDigitsAux (fuel : Nat) :
    ∀ n, n < fuel → parseDigits (natDigitsAux fuel n) = n := by
  induction fuel with
  | zero => intro n h; omega
  | succ f ih =>
    intro n h
    rw [natDigitsAux]
    by_cases h10 : n < 10
    · simp [h10, parseDigits, digitChar_toNat n h10]
    · have hpos : 0 < n := by omega
      have hd : n / 10 < n := Nat.div_lt_self hpos (by omega)
      simp only [h10, if_false]
      rw [parseDigits_append_single, ih (n / 10) (by omega),
        digitChar_toNat (n % 10) (Nat.mod_lt n (by omega))]
      omega

theorem parseDigits_natDigits (n : Nat) : parseDigits (natDigits n) = n :=
  parseDigits_natDigitsAux (n + 1) n (Nat.lt_succ_self n)

theorem natDigitsAux_isDigit (fuel : Nat) :
    ∀ n c, c ∈ natDigitsAux fuel n → c.isDigit = true := by
  induction fuel with
  | zero => intro n c hc; simp [natDigitsAux] at hc
  | succ f ih =>
    intro n c hc
    rw [natDigitsAux] at hc
    by_cases h10 : n < 10
    · simp [h10] at hc
      simp [hc, digitChar_isDigit]
    · simp only [h10, if_false, List.mem_append, List.mem_singleton] at hc
      rcases hc with hc | hc
      · exact ih (n / 10) c hc
      · simp [hc, digitChar_isDigit]

theorem natDigits_isDigit (n : Nat) (c : Char) (hc : c ∈ natDigits n) : c.isDigit = true :=
  natDigitsAux_isDigit (n + 1) n c hc

theorem natDigits_ne_nil (n : Nat) : natDigits n ≠ [] := by
  unfold natDigits natDigitsAux
  by_cases h10 : n < 10 <;> simp [h10]

theorem dropLeading_self_append (l t : List Char) : dropLeading l (l ++ t) = some t := by
  induction l with
  | nil => simp [dropLeading]
  | cons c cs ih => simpa [dropLeading] using ih

theorem takeWhile_append_stop (p : Char → Bool) (xs : List Char) (y : Char) (ys : List Char)
    (hall : ∀ c ∈ xs, p c = true) (hy : p y = false) :
    (xs ++ y :: ys).takeWhile p = xs := by
  induction xs with
  | nil => simp [List.takeWhile_cons, hy]
  | cons a as ih =>
    have ha : p a = true := hall a (by simp)
    simp only [List.cons_append, List.takeWhile_cons, ha, if_true]
    rw [ih (fun c hc => hall c (by simp [hc]))]

theorem findMaxAge_pattern (ds rest : List Char) (hne : ds ≠ [])
    (htw : (ds ++ rest).takeWhile Char.isDigit = ds) :
    findMaxAge (maxAgePat ++ (ds ++ rest)) = some ds := by
  have hcons : maxAgePat ++ (ds ++ rest)
      = 'm' :: (['a', 'x', '-', 'a', 'g', 'e', '='] ++ (ds ++ rest)) := rfl
  rw [hcons, findMaxAge]
  have hdrop : dropLeading maxAgePat ('m' :: (['a', 'x', '-', 'a', 'g', 'e', '='] ++ (ds ++ rest)))
      = some (ds ++ rest) := dropLeading_self_append maxAgePat (ds ++ rest)
  rw [hdrop]
  simp only [htw]
  simp [hne]

theorem getCacheControlHeaderValue_of_cc (res : Response) (n : Nat)
    (hcc : headerGet res.header "Cache-Control" = "max-age=" ++ natToString n ++ ", public")
    (hle : n ≤ maxInt64) :
    getCacheControlHeaderValue res = n := by
  unfold getCacheControlHeaderValue
  rw [hcc]
  have hlist : ("max-age=" ++ natToString n ++ ", public").toList
      = maxAgePat ++ (natDigits n ++ (',' :: " public".toList)) := by
    show ("max-age=" ++ natToString n ++ ", public").data
        = maxAgePat ++ (natDigits n ++ (',' :: " public".data))
    rw [String.data_append, String.data_append]
    rfl
  rw [hlist]
  rw [findMaxAge_pattern (natDigits n) (',' :: " public".toList) (natDigits_ne_nil n)
    (takeWhile_append_stop Char.isDigit (natDigits n) ',' " public".toList
      (fun c hc => natDigits_isDigit n c hc) rfl)]
  simp [parseDigits_natDigits, hle]

theorem getCacheControlHeaderValue_le (res : Response) :
    getCacheControlHeaderValue res ≤ maxInt64 := by
  unfold getCacheControlHeaderValue
  rcases findMaxAge (headerGet res.header "Cache-Control").toList with _ | ds
  · simp [maxInt64]
  · simp only []
    split
    · assumption
    · simp [maxInt64]

theorem cache_bypass_noClient (cfg : CacheConfig) (next : Transport) (req : Request)
    (hclient : cfg.redisClient = none) :
    NewCacheMiddleware cfg next req = ⟨(next req).1, (next req).2, none⟩ := by
  unfold NewCacheMiddleware
  rw [hclient]

theorem cache_bypass_method (cfg : CacheConfig) (store : String → StoreValue)
    (next : Transport) (req : Request)
    (hclient : cfg.redisClient = some store) (hm : (req.method != "GET") = true) :
    NewCacheMiddleware cfg next req = ⟨(next req).1, (next req).2, none⟩ := by
  unfold NewCacheMiddleware
  rw [hclient]
  simp only [hm, if_true]

theorem cache_invalid_fallback (cfg : CacheConfig) (store : String → StoreValue)
    (next : Transport) (req : Request)
    (hclient : cfg.redisClient = some store) (hm : req.method = "GET")
    (hstore : store (getCacheKey req cfg.headers) = .invalidEntry) :
    NewCacheMiddleware cfg next req = ⟨(next req).1, (next req).2, none⟩ := by
  unfold NewCacheMiddleware
  rw [hclient]
  simp only [hm, bne_self_eq_false, Bool.false_eq_true, if_false]
  rw [hstore]

theorem cache_hit (cfg : CacheConfig) (store : String → StoreValue)
    (sc : SerializableCache) (next : Transport) (req : Request)
    (hclient : cfg.redisClient = some store) (hm : req.method = "GET")
    (hstore : store (getCacheKey req cfg.headers) = .validEntry sc) :
    NewCacheMiddleware cfg next req =
      ⟨some { statusCode := sc.statusCode, status := sc.status, proto := sc.proto,
              protoMajor := 1, protoMinor := 1, body := .contents sc.body,
              header := headerSet
                (headerSet
                  (sc.responseHeaders.foldl
                    (fun acc p => p.2.foldl (fun acc2 vv => headerAdd acc2 p.1 vv) acc) [])
                  "Cache-Control" ("max-age=" ++ natToString sc.cacheControlValue ++ ", public"))
                "X-Cache" "HIT",
              contentLength := sc.body.utf8ByteSize },
       none, none⟩ := by
  unfold NewCacheMiddleware
  rw [hclient]
  simp only [hm, bne_self_eq_false, Bool.false_eq_true, if_false]
  rw [hstore]

theorem cache_miss_err (cfg : CacheConfig) (store : String → StoreValue)
    (next : Transport) (req : Request) (r : Option Response) (e : GoError)
    (hclient : cfg.redisClient = some store) (hm : req.method = "GET")
    (hstore : store (getCacheKey req cfg.headers) = .absent)
    (hnext : next req = (r, some e)) :
    NewCacheMiddleware cfg next req = ⟨r, some (.wrapped "error executing request" e), none⟩ := by
  unfold NewCacheMiddleware
  rw [hclient]
  simp only [hm, bne_self_eq_false, Bool.false_eq_true, if_false]
  rw [hstore]
  simp only [hnext]

theorem cache_miss_non2xx (cfg : CacheConfig) (store : String → StoreValue)
    (next : Transport) (req : Request) (resp : Response)
    (hclient : cfg.redisClient = some store) (hm : req.method = "GET")
    (hstore : store (getCacheKey req cfg.headers) = .absent)
    (hnext : next req = (some resp, none))
    (hcode : ¬(200 ≤ resp.statusCode ∧ resp.statusCode < 300)) :
    NewCacheMiddleware cfg next req = ⟨some resp, none, none⟩ := by
  unfold NewCacheMiddleware
  rw [hclient]
  simp only [hm, bne_self_eq_false, Bool.false_eq_true, if_false]
  rw [hstore]
  simp only [hnext]
  rw [if_neg hcode]

theorem cache_miss_serialize_fail (cfg : CacheConfig) (store : String → StoreValue)
    (next : Transport) (req : Request) (resp : Response) (e : GoError)
    (hclient : cfg.redisClient = some store) (hm : req.method = "GET")
    (hstore : store (getCacheKey req cfg.headers) = .absent)
    (hnext : next req = (some resp, none))
    (hcode : 200 ≤ resp.statusCode ∧ resp.statusCode < 300)
    (hbody : resp.body = .failing e) :
    NewCacheMiddleware cfg next req =
      let ttl := if cfg.overrideTTL then cfg.ttlSeconds else getCacheControlHeaderValue resp
      let hdr1 := headerSet resp.header "Cache-Control"
        ("max-age=" ++ natToString ttl ++ ", public")
      ⟨some { resp with header := headerSet hdr1 "X-Cache" "MISS" },
       some (.wrapped "error serializing response for cache"
              (.wrapped "failed to read response body" e)), none⟩ := by
  unfold NewCacheMiddleware
  rw [hclient]
  simp only [hm, bne_self_eq_false, Bool.false_eq_true, if_false]
  rw [hstore]
  simp only [hnext]
  rw [if_pos hcode]
  unfold responseToJSON
  simp only [hbody]

theorem cache_miss_2xx (cfg : CacheConfig) (store : String → StoreValue)
    (next : Transport) (req : Request) (resp : Response) (b : String)
    (hclient : cfg.redisClient = some store) (hm : req.method = "GET")
    (hstore : store (getCacheKey req cfg.headers) = .absent)
    (hnext : next req = (some resp, none))
    (hcode : 200 ≤ resp.statusCode ∧ resp.statusCode < 300)
    (hbody : resp.body = .contents b)
    (hcap : (if cfg.overrideTTL then cfg.ttlSeconds else getCacheControlHeaderValue resp)
      ≤ maxInt64) :
    NewCacheMiddleware cfg next req =
      let orig := getCacheControlHeaderValue resp
      let ttl := if cfg.overrideTTL then cfg.ttlSeconds else orig
      let hdr1 := headerSet resp.header "Cache-Control"
        ("max-age=" ++ natToString ttl ++ ", public")
      ⟨some { resp with header := headerSet hdr1 "X-Cache" "MISS", body := .contents b },
       none,
       some ⟨req.ctx, getCacheKey req cfg.headers,
             { status := resp.status, statusCode := resp.statusCode, proto := resp.proto,
               responseHeaders := hdr1, policy := ⟨orig, cfg.headers⟩,
               cacheControlValue := ttl, body := b }, ttl⟩⟩ := by
  unfold NewCacheMiddleware
  rw [hclient]
  simp only [hm, bne_self_eq_false, Bool.false_eq_true, if_false]
  rw [hstore]
  simp only [hnext]
  rw [if_pos hcode]
  unfold responseToJSON
  simp only [hbody]
  have hcc : getCacheControlHeaderValue
      { resp with
        header := headerSet resp.header "Cache-Control"
          ("max-age=" ++
            natToString (if cfg.overrideTTL then cfg.ttlSeconds
              else getCacheControlHeaderValue resp) ++ ", public"),
        body := BodyStream.contents b }
      = (if cfg.overrideTTL then cfg.ttlSeconds else getCacheControlHeaderValue resp) := by
    apply getCacheControlHeaderValue_of_cc _ _ _ hcap
    exact headerGet_set_same resp.header "Cache-Control" _
  simp only [hcc]

theorem cb_fresh_one_call (name : String) (next : Transport) (req : Request) :
    (NewCircuitBreakerMiddleware name next req).innerReached = true ∧
    (NewCircuitBreakerMiddleware name next req).breakerAfter.state = CBState.closed := by
  unfold NewCircuitBreakerMiddleware breakerExecute newCircuitBreaker breakerRun
  cases hs : isSuccessful (breakerRequestFn next req).2 with
  | true =>
    rcases he : (breakerRequestFn next req).2 with _ | e <;>
      simp [hs, he, breakerAfterSuccess, countsOnRequest, countsOnSuccess, w32]
  | false =>
    rcases he : (breakerRequestFn next req).2 with _ | e <;>
      simp [hs, he, breakerAfterFailure, countsOnRequest, countsOnFailure, readyToTrip,
        w32, countsClear]

/-- C9: configMiddlewares equals the nested application of the middlewares
over the base transport with the first-listed middleware outermost, for
middleware lists of any length including the empty one, and composing the
same list twice yields the same transport. -/
theorem C9_configMiddlewares_first_outermost :
    ∀ (mws : List RoundTripperMiddleware) (base : Transport),
      configMiddlewares mws base = mws.foldr (fun m t => m t) base ∧
      configMiddlewares [] base = base ∧
      (∀ m, configMiddlewares (m :: mws) base = m (configMiddlewares mws base)) ∧
      configMiddlewares mws base = configMiddlewares mws base := by
  intro mws base
  have hfold : ∀ l : List RoundTripperMiddleware,
      configMiddlewares l base = l.foldr (fun m t => m t) base := by
    intro l
    unfold configMiddlewares
    rw [List.foldl_reverse]
  refine ⟨hfold mws, hfold [], fun m => ?_, rfl⟩
  rw [hfold, hfold]
  rfl

/-- C10: when the inner transport answers with status >= 500 or 429, the
circuit breaker middleware discards the response and returns a nil
response together with an HTTPStatusError carrying that status code. -/
theorem C10_breaker_discards_server_errors (name : String) (next : Transport)
    (req : Request) (resp : Response)
    (hnext : next req = (some resp, none))
    (hbad : resp.statusCode ≥ 500 ∨ resp.statusCode = 429) :
    (NewCircuitBreakerMiddleware name next req).resp = none ∧
    (NewCircuitBreakerMiddleware name next req).err =
      some (.httpStatusError resp.statusCode (.errorString "HTTP error")) := by
  have hfn : breakerRequestFn next req =
      (none, some (.httpStatusError resp.statusCode (.errorString "HTTP error"))) := by
    unfold breakerRequestFn
    rw [hnext]
    simp only []
    rw [if_pos hbad]
  have hcls : isSuccessful (some (.httpStatusError resp.statusCode
      (.errorString "HTTP error"))) = false := by
    unfold isSuccessful
    rcases hbad with hb | hb
    · have : ¬(resp.statusCode < 500) := by omega
      simp [this]
    · simp [hb]
  unfold NewCircuitBreakerMiddleware breakerExecute newCircuitBreaker breakerRun
  rw [hfn]
  simp [hcls]

/-- C10 witness: a concrete 500 response is turned into an
HTTPStatusError with status 500 and no response value. -/
theorem C10_breaker_discards_server_errors_witness :
    (NewCircuitBreakerMiddleware "svc" (fun _ => (some resp500, none)) reqItems).resp = none ∧
    (NewCircuitBreakerMiddleware "svc" (fun _ => (some resp500, none)) reqItems).err =
      some (.httpStatusError resp500.statusCode (.errorString "HTTP error")) :=
  C10_breaker_discards_server_errors "svc" (fun _ => (some resp500, none)) reqItems resp500
    rfl (Or.inl (by decide))

/-- C1: the source constructs a NEW gobreaker instance inside the
per-request closure, so breaker counters never accumulate across calls.
On the scenario-C script (15 calls answered 500, then 10 answered 200,
then the 26th call answered 200) every one of the 26 calls reaches the
inner transport, and the 26th call returns the inner 200 response instead
of failing with a circuit-open error; moreover no call through this
middleware is ever rejected by its breaker, whatever the inner outcomes. -/
theorem C1_breaker_per_call_never_opens :
    ((runBreakerCalls "svc" reqItems script26).map
        (fun r => (r.innerReached, r.resp, r.err)) =
      List.replicate 15 ((true : Bool), (none : Option Response),
          some (GoError.httpStatusError 500 (.errorString "HTTP error"))) ++
        List.replicate 11 ((true : Bool), some respPlain, (none : Option GoError))) ∧
    ∀ (name : String) (next : Transport) (req : Request),
      (NewCircuitBreakerMiddleware name next req).innerReached = true := by
  constructor
  · decide
  · intro name next req
    exact (cb_fresh_one_call name next req).1

theorem string_append_cancel_left (a b c : String) (h : a ++ b = a ++ c) : b = c := by
  have hd : (a ++ b).data = (a ++ c).data := congrArg String.data h
  rw [String.data_append, String.data_append] at hd
  have hbc := List.append_cancel_left hd
  cases b
  cases c
  exact congrArg String.mk (by simpa using hbc)

theorem varyParts_congr (r1 r2 : Request) :
    ∀ hs : List String,
      (∀ k ∈ hs, headerGet r1.header k = headerGet r2.header k) →
      (hs.filter (fun key => headerGet r1.header key != "")).map
          (fun key => key ++ ":" ++ headerGet r1.header key) =
        (hs.filter (fun key => headerGet r2.header key != "")).map
          (fun key => key ++ ":" ++ headerGet r2.header key) := by
  intro hs
  induction hs with
  | nil => intro _; rfl
  | cons k ks ih =>
    intro hh
    have hk := hh k (by simp)
    have hrest := ih (fun k' hk' => hh k' (by simp [hk']))
    simp only [List.filter_cons, hk]
    by_cases hc : (headerGet r2.header k != "") = true
    · simp only [hc, if_true, List.map_cons, hrest, hk]
    · simp only [Bool.not_eq_true] at hc
      simp only [hc, Bool.false_eq_true, if_false, hrest]

theorem buildVaryHeadersPart_single (r : Request) (hName : String)
    (hne : headerGet r.header hName ≠ "") :
    buildVaryHeadersPart r [hName] = hName ++ ":" ++ headerGet r.header hName := by
  unfold buildVaryHeadersPart
  have hb : (headerGet r.header hName != "") = true := by
    simpa [bne_iff_ne] using hne
  simp [List.filter_cons, hb, stringsJoin]

theorem getCacheKeyBase_split (r : Request) (hs : cacheKeyHeaders) :
    getCacheKeyBase r hs =
      (buildURLPart r ++ "|") ++ ((buildQueryPart r ++ "|") ++ buildVaryHeadersPart r hs) := by
  unfold getCacheKeyBase
  simp [stringsJoin, String.append_assoc]

/-- C2 counterexample: two requests that are identical except for their
method map to the SAME cache key — getCacheKey never reads the method —
refuting the claim that a difference in method yields different keys. -/
theorem C2_counterexample_method_ignored :
    getCacheKey (reqAuth "GET" "Bearer abc") ["Authorization"] =
      getCacheKey (reqAuth "POST" "Bearer abc") ["Authorization"] ∧
    (reqAuth "GET" "Bearer abc").method ≠ (reqAuth "POST" "Bearer abc").method := by
  constructor
  · exact congrArg sha256hex (by decide :
      getCacheKeyBase (reqAuth "GET" "Bearer abc") ["Authorization"] =
        getCacheKeyBase (reqAuth "POST" "Bearer abc") ["Authorization"])
  · decide

/-- C2 (amended): requests agreeing on URL string, query map, and the
values of every configured cache-key header receive the same key whatever
their methods; and in the single-configured-header setting of spec
scenario A, two requests with equal URL and query but different nonempty
values of that header have different fingerprint inputs, hence different
keys up to the collision resistance of SHA-256 that the spec assumes
(with several configured headers a value containing the "|" delimiter can
still collide, and the method never influences the key). -/
theorem C2_cache_key_determinism_amended :
    (∀ (r1 r2 : Request) (hs : cacheKeyHeaders),
      r1.urlString = r2.urlString → r1.query = r2.query →
      (∀ k ∈ hs, headerGet r1.header k = headerGet r2.header k) →
      getCacheKey r1 hs = getCacheKey r2 hs) ∧
    (∀ (r1 r2 : Request) (hName : String),
      r1.urlString = r2.urlString → r1.query = r2.query →
      headerGet r1.header hName ≠ "" → headerGet r2.header hName ≠ "" →
      headerGet r1.header hName ≠ headerGet r2.header hName →
      getCacheKeyBase r1 [hName] ≠ getCacheKeyBase r2 [hName]) := by
  constructor
  · intro r1 r2 hs hurl hq hh
    apply congrArg sha256hex
    unfold getCacheKeyBase
    have h1 : buildURLPart r1 = buildURLPart r2 := hurl
    have h2 : buildQueryPart r1 = buildQueryPart r2 := by
      unfold buildQueryPart
      rw [hq]
    have h3 : buildVaryHeadersPart r1 hs = buildVaryHeadersPart r2 hs := by
      unfold buildVaryHeadersPart
      rw [varyParts_congr r1 r2 hs hh]
    rw [h1, h2, h3]
  · intro r1 r2 hName hurl hq hne1 hne2 hdiff heq
    rw [getCacheKeyBase_split, getCacheKeyBase_split] at heq
    have h2 : buildQueryPart r1 = buildQueryPart r2 := by
      unfold buildQueryPart
      rw [hq]
    rw [show buildURLPart r1 = buildURLPart r2 from hurl, h2] at heq
    have hv := string_append_cancel_left _ _ _
      (string_append_cancel_left _ _ _ heq)
    rw [buildVaryHeadersPart_single r1 hName hne1,
        buildVaryHeadersPart_single r2 hName hne2] at hv
    exact hdiff (string_append_cancel_left _ _ _ hv)

/-- C2 witness: the determinism half at a concrete request, and the
scenario-A half at Authorization values Bearer abc versus Bearer xyz. -/
theorem C2_cache_key_determinism_amended_witness :
    getCacheKey (reqAuth "GET" "Bearer abc") ["Authorization"] =
      getCacheKey (reqAuth "GET" "Bearer abc") ["Authorization"] ∧
    getCacheKeyBase (reqAuth "GET" "Bearer abc") ["Authorization"] ≠
      getCacheKeyBase (reqAuth "GET" "Bearer xyz") ["Authorization"] :=
  ⟨C2_cache_key_determinism_amended.1 (reqAuth "GET" "Bearer abc")
      (reqAuth "GET" "Bearer abc") ["Authorization"] rfl rfl (fun _ _ => rfl),
   C2_cache_key_determinism_amended.2 (reqAuth "GET" "Bearer abc")
      (reqAuth "GET" "Bearer xyz") "Authorization" rfl rfl
      (by decide) (by decide) (by decide)⟩

/-- C3 counterexample: with override enabled and a 30 second configured
TTL, a miss whose upstream response carries Cache-Control max-age=60
persists a record whose cacheControlValue is 30, not the original 60: the
source rewrites Cache-Control before serializing and responseToJSON
re-extracts the value from the rewritten header. -/
theorem C3_counterexample_override_rewrites_stored_value :
    ((NewCacheMiddleware cfgOverride30 (fun _ => (some resp60, none)) reqItems).pendingSet.map
        (fun sc => sc.value.cacheControlValue)) = some 30 ∧
    getCacheControlHeaderValue resp60 = 60 ∧ (30 : Nat) ≠ 60 := by
  refine ⟨by decide, by decide, by decide⟩

/-- C3 (amended): the cacheControlValue field of the persisted record equals the
EFFECTIVE max-age — the original upstream value when the override flag is
disabled, the configured TTL when it is enabled — because it is
re-extracted from the already-rewritten Cache-Control header; the
original upstream max-age is preserved in the policy.maxAge field of the
record instead, and the store-level expiration uses the same effective
value. -/
theorem C3_stored_record_values (cfg : CacheConfig) (store : String → StoreValue)
    (next : Transport) (req : Request) (resp : Response) (b : String)
    (hclient : cfg.redisClient = some store) (hm : req.method = "GET")
    (hstore : store (getCacheKey req cfg.headers) = .absent)
    (hnext : next req = (some resp, none))
    (hcode : 200 ≤ resp.statusCode ∧ resp.statusCode < 300)
    (hbody : resp.body = .contents b)
    (hcap : cfg.ttlSeconds ≤ maxInt64) :
    ∃ sc, (NewCacheMiddleware cfg next req).pendingSet = some sc ∧
      sc.value.cacheControlValue =
        (if cfg.overrideTTL then cfg.ttlSeconds else getCacheControlHeaderValue resp) ∧
      sc.value.policy.maxAge = getCacheControlHeaderValue resp ∧
      sc.ttlSeconds =
        (if cfg.overrideTTL then cfg.ttlSeconds else getCacheControlHeaderValue resp) := by
  have hcap' : (if cfg.overrideTTL then cfg.ttlSeconds else getCacheControlHeaderValue resp)
      ≤ maxInt64 := by
    split
    · exact hcap
    · exact getCacheControlHeaderValue_le resp
  rw [cache_miss_2xx cfg store next req resp b hclient hm hstore hnext hcode hbody hcap']
  exact ⟨_, rfl, rfl, rfl, rfl⟩

/-- C3 witness: the amended statement evaluated at the scenario-B
fixtures with override enabled. -/
theorem C3_stored_record_values_witness :
    ∃ sc, (NewCacheMiddleware cfgOverride30 (fun _ => (some resp60, none))
        reqItems).pendingSet = some sc ∧
      sc.value.cacheControlValue =
        (if cfgOverride30.overrideTTL then cfgOverride30.ttlSeconds
          else getCacheControlHeaderValue resp60) ∧
      sc.value.policy.maxAge = getCacheControlHeaderValue resp60 ∧
      sc.ttlSeconds =
        (if cfgOverride30.overrideTTL then cfgOverride30.ttlSeconds
          else getCacheControlHeaderValue resp60) :=
  C3_stored_record_values cfgOverride30 storeAbsent (fun _ => (some resp60, none))
    reqItems resp60 "{}" rfl rfl rfl rfl (by decide) rfl (by decide)

/-- C8: on a miss whose inner response is 200 with Cache-Control
max-age=60, the stored TTL and the rewritten Cache-Control header are 60
seconds when the override flag is disabled, and equal the configured
override TTL of 30 seconds when it is enabled. -/
theorem C8_effective_ttl_scenario_b (cfg : CacheConfig) (store : String → StoreValue)
    (next : Transport) (req : Request) (resp : Response) (b : String)
    (hclient : cfg.redisClient = some store) (hm : req.method = "GET")
    (hstore : store (getCacheKey req cfg.headers) = .absent)
    (hnext : next req = (some resp, none))
    (hcode : resp.statusCode = 200)
    (hbody : resp.body = .contents b)
    (hcc : headerGet resp.header "Cache-Control" = "max-age=60") :
    (cfg.overrideTTL = false →
      ∃ sc r, (NewCacheMiddleware cfg next req).pendingSet = some sc ∧
        sc.ttlSeconds = 60 ∧
        (NewCacheMiddleware cfg next req).resp = some r ∧
        headerGet r.header "Cache-Control" = "max-age=60, public") ∧
    (cfg.overrideTTL = true → cfg.ttlSeconds = 30 →
      ∃ sc r, (NewCacheMiddleware cfg next req).pendingSet = some sc ∧
        sc.ttlSeconds = 30 ∧
        (NewCacheMiddleware cfg next req).resp = some r ∧
        headerGet r.header "Cache-Control" = "max-age=30, public") := by
  have h60 : getCacheControlHeaderValue resp = 60 := by
    unfold getCacheControlHeaderValue
    rw [hcc]
    rfl
  have hcode' : 200 ≤ resp.statusCode ∧ resp.statusCode < 300 := by omega
  have hxne : (("Cache-Control" : String) == "X-Cache") = false := by decide
  constructor
  · intro hov
    have hcap' : (if cfg.overrideTTL then cfg.ttlSeconds else getCacheControlHeaderValue resp)
        ≤ maxInt64 := by
      rw [hov, h60]
      simp [maxInt64]
    rw [cache_miss_2xx cfg store next req resp b hclient hm hstore hnext hcode' hbody hcap']
    simp only [hov, h60, Bool.false_eq_true, if_false]
    refine ⟨_, _, rfl, rfl, rfl, ?_⟩
    rw [headerGet_set_ne _ _ _ _ hxne, headerGet_set_same]
    decide
  · intro hov httl
    have hcap' : (if cfg.overrideTTL then cfg.ttlSeconds else getCacheControlHeaderValue resp)
        ≤ maxInt64 := by
      rw [hov, httl]
      simp [maxInt64]
    rw [cache_miss_2xx cfg store next req resp b hclient hm hstore hnext hcode' hbody hcap']
    simp only [hov, httl, eq_self_iff_true, if_true]
    refine ⟨_, _, rfl, rfl, rfl, ?_⟩
    rw [headerGet_set_ne _ _ _ _ hxne, headerGet_set_same]
    decide

/-- C8 witness: both override settings evaluated on the scenario-B
fixtures. -/
theorem C8_effective_ttl_scenario_b_witness :
    (∃ sc r, (NewCacheMiddleware cfgNoOverride (fun _ => (some resp60, none))
        reqItems).pendingSet = some sc ∧ sc.ttlSeconds = 60 ∧
      (NewCacheMiddleware cfgNoOverride (fun _ => (some resp60, none)) reqItems).resp = some r ∧
      headerGet r.header "Cache-Control" = "max-age=60, public") ∧
    (∃ sc r, (NewCacheMiddleware cfgOverride30 (fun _ => (some resp60, none))
        reqItems).pendingSet = some sc ∧ sc.ttlSeconds = 30 ∧
      (NewCacheMiddleware cfgOverride30 (fun _ => (some resp60, none)) reqItems).resp = some r ∧
      headerGet r.header "Cache-Control" = "max-age=30, public") :=
  ⟨(C8_effective_ttl_scenario_b cfgNoOverride storeAbsent (fun _ => (some resp60, none))
      reqItems resp60 "{}" rfl rfl rfl rfl rfl rfl rfl).1 rfl,
   (C8_effective_ttl_scenario_b cfgOverride30 storeAbsent (fun _ => (some resp60, none))
      reqItems resp60 "{}" rfl rfl rfl rfl rfl rfl rfl).2 rfl rfl⟩

theorem cache_miss_nil_nil (cfg : CacheConfig) (store : String → StoreValue)
    (next : Transport) (req : Request)
    (hclient : cfg.redisClient = some store) (hm : req.method = "GET")
    (hstore : store (getCacheKey req cfg.headers) = .absent)
    (hnext : next req = (none, none)) :
    NewCacheMiddleware cfg next req = ⟨none, none, none⟩ := by
  unfold NewCacheMiddleware
  rw [hclient]
  simp only [hm, bne_self_eq_false, Bool.false_eq_true, if_false]
  rw [hstore]
  simp only [hnext]

theorem cache_miss_2xx_shape (cfg : CacheConfig) (store : String → StoreValue)
    (next : Transport) (req : Request) (resp : Response) (b : String)
    (hclient : cfg.redisClient = some store) (hm : req.method = "GET")
    (hstore : store (getCacheKey req cfg.headers) = .absent)
    (hnext : next req = (some resp, none))
    (hcode : 200 ≤ resp.statusCode ∧ resp.statusCode < 300)
    (hbody : resp.body = .contents b) :
    (NewCacheMiddleware cfg next req).resp.isSome = true ∧
    (NewCacheMiddleware cfg next req).err = none ∧
    (NewCacheMiddleware cfg next req).pendingSet.map (fun sc => sc.ctx) = some req.ctx := by
  unfold NewCacheMiddleware
  rw [hclient]
  simp only [hm, bne_self_eq_false, Bool.false_eq_true, if_false]
  rw [hstore]
  simp only [hnext]
  rw [if_pos hcode]
  unfold responseToJSON
  simp only [hbody]
  exact ⟨rfl, trivial, rfl⟩

/-- C4 counterexample: on the lookup-miss path a transport error is
returned WRAPPED as "error executing request: ..." rather than as the
identical error value, refuting "that exact error value unchanged"; no
store write occurs. -/
theorem C4_counterexample_error_is_wrapped :
    (NewCacheMiddleware cfgNoOverride (fun _ => (none, some errDial)) reqItems).err ≠
      some errDial ∧
    (NewCacheMiddleware cfgNoOverride (fun _ => (none, some errDial)) reqItems).err =
      some (.wrapped "error executing request" errDial) ∧
    (NewCacheMiddleware cfgNoOverride (fun _ => (none, some errDial)) reqItems).pendingSet
      = none := by
  exact ⟨by decide, by decide, by decide⟩

/-- C4 (amended): when the inner chain yields a transport error nothing is
ever written to the store, and the error is propagated: unchanged on the
bypass paths (no store configured, or non-GET method) and on the
deserialization-failure fallback, but wrapped with message
"error executing request" — the original error preserved as the wrapped
cause — on the lookup-miss path. -/
theorem C4_transport_error_propagation (cfg : CacheConfig) (next : Transport)
    (req : Request) (r : Option Response) (e : GoError)
    (hnext : next req = (r, some e)) :
    (NewCacheMiddleware cfg next req).pendingSet = none ∧
    (cfg.redisClient = none → (NewCacheMiddleware cfg next req).err = some e) ∧
    (∀ store, cfg.redisClient = some store → (req.method != "GET") = true →
      (NewCacheMiddleware cfg next req).err = some e) ∧
    (∀ store, cfg.redisClient = some store → req.method = "GET" →
      store (getCacheKey req cfg.headers) = .invalidEntry →
      (NewCacheMiddleware cfg next req).err = some e) ∧
    (∀ store, cfg.redisClient = some store → req.method = "GET" →
      store (getCacheKey req cfg.headers) = .absent →
      (NewCacheMiddleware cfg next req).err =
        some (.wrapped "error executing request" e)) := by
  have hps : (NewCacheMiddleware cfg next req).pendingSet = none := by
    rcases hcl : cfg.redisClient with _ | store
    · rw [cache_bypass_noClient cfg next req hcl]
    · by_cases hm : (req.method != "GET") = true
      · rw [cache_bypass_method cfg store next req hcl hm]
      · have hm' : req.method = "GET" := by
          simpa [bne_iff_ne, not_not] using hm
        rcases hsv : store (getCacheKey req cfg.headers) with _ | _ | sc
        · rw [cache_miss_err cfg store next req r e hcl hm' hsv hnext]
        · rw [cache_invalid_fallback cfg store next req hcl hm' hsv]
        · rw [cache_hit cfg store sc next req hcl hm' hsv]
  refine ⟨hps, ?_, ?_, ?_, ?_⟩
  · intro hcl
    rw [cache_bypass_noClient cfg next req hcl, hnext]
  · intro store hcl hm
    rw [cache_bypass_method cfg store next req hcl hm, hnext]
  · intro store hcl hm hsv
    rw [cache_invalid_fallback cfg store next req hcl hm hsv, hnext]
  · intro store hcl hm hsv
    rw [cache_miss_err cfg store next req r e hcl hm hsv hnext]

/-- C4 witness: the no-write guarantee plus the wrapped error on the
lookup-miss path at a concrete failing transport. -/
theorem C4_transport_error_propagation_witness :
    (NewCacheMiddleware cfgNoOverride (fun _ => (none, some errDial)) reqItems).pendingSet
      = none ∧
    (NewCacheMiddleware cfgNoOverride (fun _ => (none, some errDial)) reqItems).err =
      some (.wrapped "error executing request" errDial) :=
  ⟨(C4_transport_error_propagation cfgNoOverride (fun _ => (none, some errDial)) reqItems
      none errDial rfl).1,
   (C4_transport_error_propagation cfgNoOverride (fun _ => (none, some errDial)) reqItems
      none errDial rfl).2.2.2.2 storeAbsent rfl rfl rfl⟩

/-- C5 counterexample: a bypassed request (non-GET method) returns the
inner response unchanged, whose X-Cache header is neither HIT nor MISS,
refuting "every response ... carries X-Cache set to exactly HIT or
exactly MISS". -/
theorem C5_counterexample_bypass_lacks_marker :
    (NewCacheMiddleware cfgNoOverride (fun _ => (some respPlain, none)) reqItemsPost).resp
      = some respPlain ∧
    headerGet respPlain.header "X-Cache" ≠ "HIT" ∧
    headerGet respPlain.header "X-Cache" ≠ "MISS" := by
  exact ⟨by decide, by decide, by decide⟩

/-- C5 (amended): the X-Cache marker is set only on the cache paths that
produce it: a valid hit carries exactly HIT, a 2xx lookup-miss carries
exactly MISS, while bypassed requests (no store configured or non-GET
method), deserialization-failure fallbacks, and non-2xx miss responses
are returned with the headers of the inner response untouched, so they carry
no marker unless the inner response already had one. -/
theorem C5_marker_header_by_path (cfg : CacheConfig) (next : Transport) (req : Request) :
    (∀ store sc, cfg.redisClient = some store → req.method = "GET" →
      store (getCacheKey req cfg.headers) = .validEntry sc →
      ∃ r, (NewCacheMiddleware cfg next req).resp = some r ∧
        headerGet r.header "X-Cache" = "HIT") ∧
    (∀ store resp b, cfg.redisClient = some store → req.method = "GET" →
      store (getCacheKey req cfg.headers) = .absent →
      next req = (some resp, none) →
      200 ≤ resp.statusCode → resp.statusCode < 300 →
      resp.body = .contents b →
      (if cfg.overrideTTL then cfg.ttlSeconds else getCacheControlHeaderValue resp)
          ≤ maxInt64 →
      ∃ r, (NewCacheMiddleware cfg next req).resp = some r ∧
        headerGet r.header "X-Cache" = "MISS") ∧
    (cfg.redisClient = none →
      (NewCacheMiddleware cfg next req).resp = (next req).1) ∧
    (∀ store, cfg.redisClient = some store → (req.method != "GET") = true →
      (NewCacheMiddleware cfg next req).resp = (next req).1) ∧
    (∀ store, cfg.redisClient = some store → req.method = "GET" →
      store (getCacheKey req cfg.headers) = .invalidEntry →
      (NewCacheMiddleware cfg next req).resp = (next req).1) ∧
    (∀ store resp, cfg.redisClient = some store → req.method = "GET" →
      store (getCacheKey req cfg.headers) = .absent →
      next req = (some resp, none) →
      ¬(200 ≤ resp.statusCode ∧ resp.statusCode < 300) →
      (NewCacheMiddleware cfg next req).resp = some resp) := by
  refine ⟨?_, ?_, ?_, ?_, ?_, ?_⟩
  · intro store sc hcl hm hsv
    rw [cache_hit cfg store sc next req hcl hm hsv]
    exact ⟨_, rfl, headerGet_set_same _ _ _⟩
  · intro store resp b hcl hm hsv hnext h2 h3 hbody hcap
    rw [cache_miss_2xx cfg store next req resp b hcl hm hsv hnext ⟨h2, h3⟩ hbody hcap]
    exact ⟨_, rfl, headerGet_set_same _ _ _⟩
  · intro hcl
    rw [cache_bypass_noClient cfg next req hcl]
  · intro store hcl hm
    rw [cache_bypass_method cfg store next req hcl hm]
  · intro store hcl hm hsv
    rw [cache_invalid_fallback cfg store next req hcl hm hsv]
  · intro store resp hcl hm hsv hnext hcode
    rw [cache_miss_non2xx cfg store next req resp hcl hm hsv hnext hcode]

/-- C5 witness: the HIT half on a store that hits, and the MISS half on a
miss with a 2xx inner response. -/
theorem C5_marker_header_by_path_witness :
    (∃ r, (NewCacheMiddleware cfgHit (fun _ => (some respPlain, none)) reqItems).resp
        = some r ∧ headerGet r.header "X-Cache" = "HIT") ∧
    (∃ r, (NewCacheMiddleware cfgNoOverride (fun _ => (some resp60, none)) reqItems).resp
        = some r ∧ headerGet r.header "X-Cache" = "MISS") :=
  ⟨(C5_marker_header_by_path cfgHit (fun _ => (some respPlain, none)) reqItems).1
      storeHit scHit rfl rfl rfl,
   (C5_marker_header_by_path cfgNoOverride (fun _ => (some resp60, none)) reqItems).2.1
      storeAbsent resp60 "{}" rfl rfl rfl rfl (by decide) (by decide) rfl (by decide)⟩

/-- C6 counterexample: a 2xx lookup-miss whose body read fails makes the
middleware return a non-nil response TOGETHER WITH a non-nil error (the
serialization-failure path returns resp alongside the wrapped error),
refuting "never both at once". -/
theorem C6_counterexample_response_with_error :
    ((NewCacheMiddleware cfgNoOverride (fun _ => (some respBadBody, none)) reqItems).resp).isSome
      = true ∧
    ((NewCacheMiddleware cfgNoOverride (fun _ => (some respBadBody, none)) reqItems).err).isSome
      = true := by
  exact ⟨by decide, by decide⟩

/-- C6 (amended): provided the inner transport itself returns exactly one
of response and error, and every 2xx response it produces on the miss
path has a readable body, the cache middleware also returns exactly one
of response and error; the excluded serialization-failure path (2xx miss
whose body read fails) is the one path that returns both. -/
theorem C6_single_outcome (cfg : CacheConfig) (next : Transport) (req : Request)
    (hwf : ((next req).1.isSome = true ∧ (next req).2 = none) ∨
      ((next req).1 = none ∧ (next req).2.isSome = true))
    (hread : ∀ resp, next req = (some resp, none) → 200 ≤ resp.statusCode →
      resp.statusCode < 300 → ∃ b, resp.body = BodyStream.contents b) :
    ((NewCacheMiddleware cfg next req).resp.isSome = true ∧
      (NewCacheMiddleware cfg next req).err = none) ∨
    ((NewCacheMiddleware cfg next req).resp = none ∧
      (NewCacheMiddleware cfg next req).err.isSome = true) := by
  have hpass : (NewCacheMiddleware cfg next req).resp = (next req).1 ∧
      (NewCacheMiddleware cfg next req).err = (next req).2 →
      ((NewCacheMiddleware cfg next req).resp.isSome = true ∧
        (NewCacheMiddleware cfg next req).err = none) ∨
      ((NewCacheMiddleware cfg next req).resp = none ∧
        (NewCacheMiddleware cfg next req).err.isSome = true) := by
    intro ⟨e1, e2⟩
    rw [e1, e2]
    exact hwf
  rcases hcl : cfg.redisClient with _ | store
  · exact hpass (by rw [cache_bypass_noClient cfg next req hcl]; exact ⟨rfl, rfl⟩)
  · by_cases hm : (req.method != "GET") = true
    · exact hpass (by rw [cache_bypass_method cfg store next req hcl hm]; exact ⟨rfl, rfl⟩)
    · have hm' : req.method = "GET" := by
        simpa [bne_iff_ne, not_not] using hm
      rcases hsv : store (getCacheKey req cfg.headers) with _ | _ | sc
      · rcases hwf with ⟨h1, h2⟩ | ⟨h1, h2⟩
        · obtain ⟨resp, hresp⟩ := Option.isSome_iff_exists.mp h1
          have hnext : next req = (some resp, none) := by
            rw [Prod.ext_iff]
            exact ⟨hresp, h2⟩
          by_cases hcode : 200 ≤ resp.statusCode ∧ resp.statusCode < 300
          · obtain ⟨b, hb⟩ := hread resp hnext hcode.1 hcode.2
            have hs := cache_miss_2xx_shape cfg store next req resp b hcl hm' hsv
              hnext hcode hb
            exact Or.inl ⟨hs.1, hs.2.1⟩
          · rw [cache_miss_non2xx cfg store next req resp hcl hm' hsv hnext hcode]
            exact Or.inl ⟨rfl, rfl⟩
        · obtain ⟨e, he⟩ := Option.isSome_iff_exists.mp h2
          have hnext : next req = (none, some e) := by
            rw [Prod.ext_iff]
            exact ⟨h1, he⟩
          rw [cache_miss_err cfg store next req none e hcl hm' hsv hnext]
          exact Or.inr ⟨rfl, rfl⟩
      · exact hpass (by rw [cache_invalid_fallback cfg store next req hcl hm' hsv]; exact ⟨rfl, rfl⟩)
      · rw [cache_hit cfg store sc next req hcl hm' hsv]
        exact Or.inl ⟨rfl, rfl⟩

/-- C6 witness: the amended statement at a concrete failing transport. -/
theorem C6_single_outcome_witness :
    ((NewCacheMiddleware cfgNoOverride (fun _ => (none, some errDial)) reqItems).resp.isSome
        = true ∧
      (NewCacheMiddleware cfgNoOverride (fun _ => (none, some errDial)) reqItems).err = none) ∨
    ((NewCacheMiddleware cfgNoOverride (fun _ => (none, some errDial)) reqItems).resp = none ∧
      (NewCacheMiddleware cfgNoOverride (fun _ => (none, some errDial)) reqItems).err.isSome
        = true) :=
  C6_single_outcome cfgNoOverride (fun _ => (none, some errDial)) reqItems
    (Or.inr ⟨rfl, rfl⟩)
    (fun _ hr _ _ => absurd (congrArg Prod.fst hr) (by simp))

/-- C7: every detached cache write is handed the context of the inbound
request itself — the source passes req.Context() to the Set call of the
spawned goroutine — so the lifetime of the write is tied to, not
independent of, caller cancellation: whenever a call spawns a write, the context tag given to
Set equals req.ctx, shown concretely on the scenario-B fixtures whose
request carries context tag 7. -/
theorem C7_detached_write_uses_request_context :
    (∀ (cfg : CacheConfig) (next : Transport) (req : Request),
      (((NewCacheMiddleware cfg next req).pendingSet.map (fun sc => sc.ctx)).all
        (fun c => c == req.ctx)) = true) ∧
    ((NewCacheMiddleware cfgNoOverride (fun _ => (some resp60, none)) reqItems).pendingSet.map
        (fun sc => sc.ctx)) = some reqItems.ctx := by
  constructor
  · intro cfg next req
    rcases hcl : cfg.redisClient with _ | store
    · rw [cache_bypass_noClient cfg next req hcl]
      rfl
    · by_cases hm : (req.method != "GET") = true
      · rw [cache_bypass_method cfg store next req hcl hm]
        rfl
      · have hm' : req.method = "GET" := by
          simpa [bne_iff_ne, not_not] using hm
        rcases hsv : store (getCacheKey req cfg.headers) with _ | _ | sc
        · rcases hnr : next req with ⟨r1, r2⟩
          rcases r2 with _ | e
          · rcases r1 with _ | resp
            · rw [cache_miss_nil_nil cfg store next req hcl hm' hsv hnr]
              rfl
            · by_cases hcode : 200 ≤ resp.statusCode ∧ resp.statusCode < 300
              · rcases hb : resp.body with b | e
                · have hs := (cache_miss_2xx_shape cfg store next req resp b hcl hm' hsv
                    hnr hcode hb).2.2
                  rw [hs]
                  simp
                · rw [cache_miss_serialize_fail cfg store next req resp e hcl hm' hsv
                    hnr hcode hb]
                  rfl
              · rw [cache_miss_non2xx cfg store next req resp hcl hm' hsv hnr hcode]
                rfl
          · rw [cache_miss_err cfg store next req r1 e hcl hm' hsv hnr]
            rfl
        · rw [cache_invalid_fallback cfg store next req hcl hm' hsv]
          rfl
        · rw [cache_hit cfg store sc next req hcl hm' hsv]
          rfl
  · decide
